import Mathlib

set_option maxHeartbeats 1000000

/-!
Shallow embedding of the HMS component status tracker
(`docs/categories/verification/status-tracker.py`).

File-system effects are made explicit: the per-component status files
become a `Store` (a map from component name to parsed file content), the
work-ticket directory and the notification log become an `FS` record,
and the wall clock (`datetime.datetime.now().isoformat()`), the uuid
generator and the success of the notification log append are passed in
as parameters.  A Python exception escaping an operation is modelled by
the `raised` result constructors; the file writes performed before the
exception remain visible in the returned `FS`, exactly as files written
before an uncaught exception remain on disk.
-/

/-- Status file format version (`STATUS_VERSION = "1.0"`, line 36). -/
def STATUS_VERSION : String := "1.0"

/-- Embedding of the `status["start"]` sub-dictionary (lines 162-169). -/
structure StartStats where
  last_attempt : Option String
  last_success : Option String
  attempts : Nat
  successes : Nat
  failures : Nat
  status : String
deriving DecidableEq, Repr

/-- Embedding of the `passed` / `failed` / `skipped` counts of a test-results
payload (the only keys the tracker reads; `results.get(k, 0)` defaults). -/
structure TestResults where
  passed : Nat
  failed : Nat
  skipped : Nat
deriving DecidableEq, Repr

/-- Embedding of the `status["tests"]` sub-dictionary (lines 170-178);
`last_results` is `none` for the initial empty dictionary `{}`. -/
structure TestStats where
  last_run : Option String
  last_success : Option String
  total_runs : Nat
  total_passed : Nat
  total_failed : Nat
  status : String
  last_results : Option TestResults
deriving DecidableEq, Repr

/-- Details dictionary of an issue: `{"output": output}` for a start
failure (line 229), `{"results": results}` for a test failure (line 289). -/
inductive IssueDetails where
  | startOutput (output : Option String)
  | testResults (results : TestResults)
deriving DecidableEq, Repr

/-- Embedding of an issue record (lines 224-233 and 284-293). -/
structure Issue where
  id : String
  type : String
  component : String
  timestamp : String
  details : IssueDetails
  status : String
deriving DecidableEq, Repr

/-- Embedding of a per-component status record (lines 157-181). -/
structure ComponentStatus where
  component : String
  version : String
  created_at : String
  last_updated : String
  start : StartStats
  tests : TestStats
  issues : List Issue
  operational_status : String
deriving DecidableEq, Repr

/-- Content of a component status file: either unparseable JSON
(`json.JSONDecodeError` on load) or a parsed status record. -/
inductive FileContent where
  | malformed
  | good (s : ComponentStatus)
deriving DecidableEq, Repr

/-- The status directory: one optional file per component name. -/
abbrev Store := String → Option FileContent

/-- Embedding of a work-ticket record (lines 346-362); the `details`
dictionary is flattened into the three `details_` fields. -/
structure Ticket where
  id : String
  component : String
  issue_id : String
  issue_type : String
  created_at : String
  updated_at : String
  assigned_to : String
  status : String
  priority : String
  details_issue : Issue
  details_description : String
  details_suggested_actions : List String
deriving DecidableEq, Repr

/-- The remaining file-system state: the work-ticket directory (one record
per generated ticket, in creation order) and the notification log. -/
structure FS where
  tickets : List Ticket
  notif_log : List String
deriving DecidableEq, Repr

/-- Outcome of `generate_work_ticket`: the returned ticket id, or an
uncaught exception propagating out of it. -/
inductive TicketResult where
  | ok (ticket_id : String)
  | raised
deriving DecidableEq, Repr

/-- Outcome of a record operation: the returned (and saved) status
object, or an uncaught exception propagating out of it. -/
inductive OpResult where
  | ok (status : ComponentStatus)
  | raised
deriving DecidableEq, Repr

/-- Result of a record operation: the new status directory, the new
ticket/log file-system state, and the returned value. -/
structure RecordResult where
  store : Store
  fs : FS
  result : OpResult

/-- The fresh status object built by `get_component_status` when no
parseable file exists (lines 157-181); both `datetime.now()` calls of
the literal are modelled by the single `now` parameter. -/
def default_status (component : String) (now : String) : ComponentStatus :=
  { component := component
    version := STATUS_VERSION
    created_at := now
    last_updated := now
    start := { last_attempt := none, last_success := none, attempts := 0,
               successes := 0, failures := 0, status := "unknown" }
    tests := { last_run := none, last_success := none, total_runs := 0,
               total_passed := 0, total_failed := 0, status := "unknown",
               last_results := none }
    issues := []
    operational_status := "unknown" }

/-- Embedding of `get_component_status` (lines 145-181): return the
parsed file if present and parseable, otherwise a fresh default.  The
function performs no writes, which the return type makes explicit. -/
def get_component_status (store : Store) (component : String) (now : String) :
    ComponentStatus :=
  match store component with
  | some (.good s) => s
  | some .malformed => default_status component now
  | none => default_status component now

/-- Embedding of `update_component_status` (lines 183-191): refresh
`last_updated`, then overwrite the component's file.  The second
component of the result is the saved record, which in Python is the very
dictionary the caller passed in (mutated in place). -/
def update_component_status (store : Store) (component : String)
    (status : ComponentStatus) (now : String) : Store × ComponentStatus :=
  let saved := { status with last_updated := now }
  (fun c => if c = component then some (.good saved) else store c, saved)

/-- The pure derivation rule assigned by `update_operational_status`
(lines 311-325). -/
def opStatusRule (start_status test_status : String) : String :=
  if start_status = "unknown" ∨ test_status = "unknown" then "unknown"
  else if start_status = "failed" then "offline"
  else if test_status = "failing" then "degraded"
  else if start_status = "running" ∧ test_status = "passing" then "operational"
  else "degraded"

/-- Embedding of `update_operational_status` (lines 311-325): recompute
the `operational_status` field from the two sub-statuses. -/
def update_operational_status (status : ComponentStatus) : ComponentStatus :=
  { status with
    operational_status := opStatusRule status.start.status status.tests.status }

/-- Embedding of `determine_responsible_agent` (lines 376-390). -/
def determine_responsible_agent (component issue_type : String) : String :=
  if issue_type = "start_failure" then "HMS-DEV"
  else if issue_type = "test_failure" then component.replace "HMS-" "HMS-AGT-"
  else "HMS-DEV"

/-- The `issue.get("details", {}).get("results", {})` lookup with its
per-key `get(k, 0)` defaults: a start-failure details dictionary has no
`results` key, so every count defaults to 0. -/
def issueResults : IssueDetails → TestResults
  | .testResults r => r
  | .startOutput _ => { passed := 0, failed := 0, skipped := 0 }

/-- Embedding of `determine_priority` (lines 392-412); Python's float
division is modelled by exact rational division. -/
def determine_priority (component issue_type : String) (issue : Issue) : String :=
  if issue_type = "start_failure" then "high"
  else if issue_type = "test_failure" then
    let results := issueResults issue.details
    let failed := results.failed
    let total := failed + results.passed + results.skipped
    if 0 < total ∧ (failed : ℚ) / (total : ℚ) > 0.5 then "high"
    else "medium"
  else "medium"

/-- Embedding of `generate_ticket_description` (lines 414-428). -/
def generate_ticket_description (component issue_type : String) (issue : Issue) :
    String :=
  if issue_type = "start_failure" then
    "The " ++ component ++ " component failed to start. This is affecting the operational status of the HMS ecosystem and should be resolved as soon as possible."
  else if issue_type = "test_failure" then
    let results := issueResults issue.details
    let failed := results.failed
    let total := failed + results.passed + results.skipped
    if 0 < total then
      "Tests for " ++ component ++ " are failing (" ++ toString failed ++ "/" ++
        toString total ++ " tests failed). This may indicate issues with recent changes or integration problems."
    else
      "Tests for " ++ component ++ " failed to run properly. This may indicate configuration or dependency issues."
  else
    "Issue detected with " ++ component ++ ": " ++ issue_type

/-- Embedding of `generate_suggested_actions` (lines 430-448). -/
def generate_suggested_actions (component issue_type : String) (_issue : Issue) :
    List String :=
  if issue_type = "start_failure" then
    [ "Check the " ++ component ++ " logs for error messages",
      "Verify all dependencies for " ++ component ++ " are available and correctly configured",
      "Check for recent changes that might have affected the component's ability to start",
      "Verify environment variables and configuration files" ]
  else if issue_type = "test_failure" then
    [ "Review failing tests for " ++ component,
      "Check for recent code changes that might have broken tests",
      "Verify test environment and fixtures",
      "Check for integration issues with dependent components",
      "Run tests with verbose output to diagnose specific failures" ]
  else
    [ "Investigate the issue", "Check component logs", "Review recent changes" ]

/-- Embedding of `notify_agent_about_ticket` (lines 450-459): append one
line to the notification log.  `notifyOk` models whether the append I/O
succeeds; on failure the uncaught exception propagates (`raised`). -/
def notify_agent_about_ticket (notifyOk : Bool) (fs : FS)
    (agent ticket_id : String) (ticket : Ticket) (now : String) :
    Except Unit FS :=
  if notifyOk then
    .ok { fs with notif_log := fs.notif_log ++
      [now ++ " - Notified " ++ agent ++ " about " ++ ticket_id ++ " (" ++
        ticket.component ++ " - " ++ ticket.issue_type ++ ")"] }
  else .error ()

/-- The ticket record literal built by `generate_work_ticket`
(lines 343-362), with the generated id and timestamps as parameters. -/
def build_ticket (component issue_type : String) (issue : Issue)
    (ticket_id now : String) : Ticket :=
  { id := ticket_id
    component := component
    issue_id := issue.id
    issue_type := issue_type
    created_at := now
    updated_at := now
    assigned_to := determine_responsible_agent component issue_type
    status := "open"
    priority := determine_priority component issue_type issue
    details_issue := issue
    details_description := generate_ticket_description component issue_type issue
    details_suggested_actions := generate_suggested_actions component issue_type issue }

/-- Embedding of `generate_work_ticket` (lines 327-374): write the
ticket file, then notify.  The ticket file write precedes the
notification, so the ticket remains in the returned `FS` even when the
notification append raises; in that case the exception propagates and
no ticket id is returned. -/
def generate_work_ticket (notifyOk : Bool) (fs : FS)
    (component issue_type : String) (issue : Issue) (ticket_id now : String) :
    FS × TicketResult :=
  let assigned_agent := determine_responsible_agent component issue_type
  let ticket := build_ticket component issue_type issue ticket_id now
  let fs1 := { fs with tickets := fs.tickets ++ [ticket] }
  match notify_agent_about_ticket notifyOk fs1 assigned_agent ticket_id ticket now with
  | .ok fs2 => (fs2, .ok ticket_id)
  | .error _ => (fs1, .raised)

/-- Embedding of `record_component_start` (lines 193-246).  `issue_id`
and `ticket_id` stand for the generated uuids, `now` for the wall clock
(all `datetime.now()` calls in one run are modelled by one timestamp).
If `generate_work_ticket` raises, the exception propagates before the
operational-status update and the save. -/
def record_component_start (notifyOk : Bool) (store : Store) (fs : FS)
    (component : String) (success : Bool) (output : Option String)
    (issue_id ticket_id now : String) : RecordResult :=
  let status := get_component_status store component now
  let status := { status with start := { status.start with
                    last_attempt := some now,
                    attempts := status.start.attempts + 1 } }
  if success then
    let status := { status with start := { status.start with
                      last_success := some now,
                      successes := status.start.successes + 1,
                      status := "running" } }
    let status := update_operational_status status
    let su := update_component_status store component status now
    { store := su.1, fs := fs, result := .ok su.2 }
  else
    let status := { status with start := { status.start with
                      failures := status.start.failures + 1,
                      status := "failed" } }
    let issue : Issue := { id := issue_id, type := "start_failure",
                           component := component, timestamp := now,
                           details := .startOutput output, status := "open" }
    let status := { status with issues := status.issues ++ [issue] }
    let gen :=
      if status.start.failures > status.start.successes then
        generate_work_ticket notifyOk fs component "start_failure" issue ticket_id now
      else (fs, .ok ticket_id)
    match gen.2 with
    | .raised => { store := store, fs := gen.1, result := .raised }
    | .ok _ =>
      let status := update_operational_status status
      let su := update_component_status store component status now
      { store := su.1, fs := gen.1, result := .ok su.2 }

/-- Embedding of `record_test_run` (lines 248-309); `results` is `none`
when the caller passes no payload, in which case the zero payload is
substituted (line 270). -/
def record_test_run (notifyOk : Bool) (store : Store) (fs : FS)
    (component : String) (success : Bool) (results0 : Option TestResults)
    (issue_id ticket_id now : String) : RecordResult :=
  let status := get_component_status store component now
  let status := { status with tests := { status.tests with
                    last_run := some now,
                    total_runs := status.tests.total_runs + 1 } }
  let results := results0.getD { passed := 0, failed := 0, skipped := 0 }
  if success then
    let status := { status with tests := { status.tests with
                      last_success := some now,
                      total_passed := status.tests.total_passed + 1,
                      status := "passing" } }
    let status := { status with tests := { status.tests with
                      last_results := some results } }
    let status := update_operational_status status
    let su := update_component_status store component status now
    { store := su.1, fs := fs, result := .ok su.2 }
  else
    let status := { status with tests := { status.tests with
                      total_failed := status.tests.total_failed + 1,
                      status := "failing" } }
    let issue : Issue := { id := issue_id, type := "test_failure",
                           component := component, timestamp := now,
                           details := .testResults results, status := "open" }
    let status := { status with issues := status.issues ++ [issue] }
    let gen :=
      if status.tests.total_failed > status.tests.total_passed then
        generate_work_ticket notifyOk fs component "test_failure" issue ticket_id now
      else (fs, .ok ticket_id)
    match gen.2 with
    | .raised => { store := store, fs := gen.1, result := .raised }
    | .ok _ =>
      let status := { status with tests := { status.tests with
                        last_results := some results } }
      let status := update_operational_status status
      let su := update_component_status store component status now
      { store := su.1, fs := gen.1, result := .ok su.2 }

/-- An empty status directory. -/
def emptyStore : Store := fun _ => none

/-- An empty ticket directory and notification log. -/
def emptyFS : FS := { tickets := [], notif_log := [] }

/-! ## Helper lemmas -/

@[simp]
lemma update_operational_status_start (s : ComponentStatus) :
    (update_operational_status s).start = s.start := rfl

@[simp]
lemma update_operational_status_tests (s : ComponentStatus) :
    (update_operational_status s).tests = s.tests := rfl

@[simp]
lemma update_operational_status_op (s : ComponentStatus) :
    (update_operational_status s).operational_status
      = opStatusRule s.start.status s.tests.status := rfl

@[simp]
lemma update_operational_status_issues (s : ComponentStatus) :
    (update_operational_status s).issues = s.issues := rfl

@[simp]
lemma get_after_update (store : Store) (component : String)
    (status : ComponentStatus) (now now2 : String) :
    get_component_status (update_component_status store component status now).1
      component now2 = { status with last_updated := now } := by
  simp [get_component_status, update_component_status]

@[simp]
lemma update_component_status_saved (store : Store) (component : String)
    (status : ComponentStatus) (now : String) :
    (update_component_status store component status now).2
      = { status with last_updated := now } := rfl

@[simp]
lemma update_component_status_at (store : Store) (component : String)
    (status : ComponentStatus) (now : String) :
    (update_component_status store component status now).1 component
      = some (.good { status with last_updated := now }) := by
  simp [update_component_status]

@[simp]
lemma generate_work_ticket_result (notifyOk : Bool) (fs : FS)
    (component issue_type : String) (issue : Issue) (ticket_id now : String) :
    (generate_work_ticket notifyOk fs component issue_type issue ticket_id now).2
      = if notifyOk then .ok ticket_id else .raised := by
  cases notifyOk <;> simp [generate_work_ticket, notify_agent_about_ticket]

@[simp]
lemma generate_work_ticket_tickets (notifyOk : Bool) (fs : FS)
    (component issue_type : String) (issue : Issue) (ticket_id now : String) :
    (generate_work_ticket notifyOk fs component issue_type issue ticket_id now).1.tickets
      = fs.tickets ++ [build_ticket component issue_type issue ticket_id now] := by
  cases notifyOk <;> simp [generate_work_ticket, notify_agent_about_ticket]

/-- A status record whose two sub-statuses are the given strings, used to
instantiate the operational-status theorems on concrete inputs. -/
def state_with (start_s test_s : String) : ComponentStatus :=
  let d := default_status "HMS-API" "t0"
  { d with start := { d.start with status := start_s },
           tests := { d.tests with status := test_s } }

/-! ## Claim theorems -/

/-- Modelled from the claim's precedence description, applied by hand to
each of the nine `(startStatus, testStatus)` pairs: rows where either
sub-status is unknown expect `unknown`; otherwise a failed start expects
`offline`; otherwise failing tests expect `degraded`; `running` with
`passing` expects `operational`; no enumerated pair reaches the final
else case. -/
def spec_status_table : List (String × String × String) :=
  [("unknown", "unknown", "unknown"),
   ("unknown", "passing", "unknown"),
   ("unknown", "failing", "unknown"),
   ("running", "unknown", "unknown"),
   ("failed", "unknown", "unknown"),
   ("failed", "passing", "offline"),
   ("failed", "failing", "offline"),
   ("running", "failing", "degraded"),
   ("running", "passing", "operational")]

/-- C1: for every pair (startStatus, testStatus) in
{unknown, running, failed} × {unknown, passing, failing}, the
operational-status rule `update_operational_status` produces exactly the
output demanded by the spec's precedence order (unknown check first,
then failed, then failing, then the success pair, else degraded), as
tabulated in `spec_status_table`. -/
theorem claim_C1 (s : ComponentStatus) (p : String × String × String)
    (hp : p ∈ spec_status_table) (h1 : s.start.status = p.1)
    (h2 : s.tests.status = p.2.1) :
    (update_operational_status s).operational_status = p.2.2 := by
  fin_cases hp <;>
    simp only [update_operational_status_op, h1, h2] <;> decide

theorem claim_C1_witness :
    (update_operational_status (state_with "failed" "passing")).operational_status
      = "offline" :=
  claim_C1 (state_with "failed" "passing") ("failed", "passing", "offline")
    (by decide) rfl rfl

/-- C4 counterexample: for a component whose start status is `running`
and whose test status is `unknown`, the rule returns `unknown`, not
`degraded` as the claim states: the either-unknown check fires first. -/
theorem claim_C4_counterexample :
    (update_operational_status (state_with "running" "unknown")).operational_status
        = "unknown" ∧
      (update_operational_status (state_with "running" "unknown")).operational_status
        ≠ "degraded" := by
  decide

/-- C4 (amended): for startStatus = running and testStatus = unknown,
the operational-status rule returns `unknown`, because the
either-sub-status-unknown check precedes every other case; the final
else case is unreachable for the enumerated status values. -/
theorem claim_C4 (s : ComponentStatus) (h1 : s.start.status = "running")
    (h2 : s.tests.status = "unknown") :
    (update_operational_status s).operational_status = "unknown" := by
  simp only [update_operational_status_op, h1, h2]
  decide

theorem claim_C4_witness :
    (update_operational_status (state_with "running" "unknown")).operational_status
      = "unknown" :=
  claim_C4 (state_with "running" "unknown") rfl rfl

/-- Concrete issue used to exhibit the notification-failure behavior. -/
def cex_issue : Issue :=
  { id := "i1", type := "start_failure", component := "HMS-API",
    timestamp := "t0", details := .startOutput (some "boom"), status := "open" }

/-- C5 counterexample: when the notification append fails, no ticket id
is returned to the caller (the exception propagates), even though the
ticket record was persisted; this refutes the claim that the ticket id
is still returned. -/
theorem claim_C5_counterexample :
    (generate_work_ticket false emptyFS "HMS-API" "start_failure" cex_issue
        "WRK-1" "t0").2 = .raised ∧
      (generate_work_ticket false emptyFS "HMS-API" "start_failure" cex_issue
        "WRK-1" "t0").1.tickets.length = 1 := by
  decide

/-- C5 (amended): `generate_work_ticket` persists the ticket record
before notifying, so the ticket record is persisted whether or not the
notification append succeeds; but the ticket id is returned to the
caller if and only if the notification append succeeds — on a failed
append the exception propagates instead of being ignored. -/
theorem claim_C5 (notifyOk : Bool) (fs : FS) (component issue_type : String)
    (issue : Issue) (ticket_id now : String) :
    (generate_work_ticket notifyOk fs component issue_type issue ticket_id now).1.tickets
        = fs.tickets ++ [build_ticket component issue_type issue ticket_id now] ∧
      ((generate_work_ticket notifyOk fs component issue_type issue ticket_id now).2
          = .ok ticket_id ↔ notifyOk = true) := by
  cases notifyOk <;> simp

/-- C6: loading a component with a missing or unparseable status file
returns the freshly-initialized default record — all counters zero,
start and test statuses unknown, empty issue list, unknown operational
status — without raising and without writing (the function returns only
a record, never a store); loads at any two times return the same default
shape. -/
theorem claim_C6 (store : Store) (component now : String)
    (h : store component = none ∨ store component = some .malformed) :
    get_component_status store component now = default_status component now ∧
      (get_component_status store component now).start.attempts = 0 ∧
      (get_component_status store component now).start.successes = 0 ∧
      (get_component_status store component now).start.failures = 0 ∧
      (get_component_status store component now).start.status = "unknown" ∧
      (get_component_status store component now).tests.total_runs = 0 ∧
      (get_component_status store component now).tests.total_passed = 0 ∧
      (get_component_status store component now).tests.total_failed = 0 ∧
      (get_component_status store component now).tests.status = "unknown" ∧
      (get_component_status store component now).issues = [] ∧
      (get_component_status store component now).operational_status = "unknown" := by
  have hg : get_component_status store component now = default_status component now := by
    rcases h with h | h <;> simp [get_component_status, h]
  rw [hg]
  exact ⟨rfl, rfl, rfl, rfl, rfl, rfl, rfl, rfl, rfl, rfl, rfl⟩

theorem claim_C6_witness :
    get_component_status emptyStore "HMS-API" "t0" = default_status "HMS-API" "t0" :=
  (claim_C6 emptyStore "HMS-API" "t0" (Or.inl rfl)).1

/-- C7: saving any status record for a component and then loading that
component returns a record equal to the saved one except that
`last_updated` is refreshed to the save time; the save is a full
overwrite, independent of whatever the store previously held. -/
theorem claim_C7 (store : Store) (component : String)
    (status : ComponentStatus) (now now2 : String) :
    get_component_status (update_component_status store component status now).1
      component now2 = { status with last_updated := now } := by
  simp

/-- C8: `determine_priority` returns high for every start-failure issue;
for a test-failure issue it returns high exactly when the failure ratio
failed / (failed + passed + skipped) exceeds one half with a strictly
positive total, and medium otherwise (in particular when the total is
zero). -/
theorem claim_C8 (component : String) (issue : Issue) :
    determine_priority component "start_failure" issue = "high" ∧
      (determine_priority component "test_failure" issue = "high" ↔
        (0 < (issueResults issue.details).failed + (issueResults issue.details).passed
            + (issueResults issue.details).skipped ∧
          ((issueResults issue.details).failed : ℚ) /
            (((issueResults issue.details).failed + (issueResults issue.details).passed
                + (issueResults issue.details).skipped : Nat) : ℚ) > 0.5)) ∧
      (¬ (0 < (issueResults issue.details).failed + (issueResults issue.details).passed
            + (issueResults issue.details).skipped ∧
          ((issueResults issue.details).failed : ℚ) /
            (((issueResults issue.details).failed + (issueResults issue.details).passed
                + (issueResults issue.details).skipped : Nat) : ℚ) > 0.5) →
        determine_priority component "test_failure" issue = "medium") := by
  refine ⟨by simp [determine_priority], ?_, ?_⟩ <;>
    by_cases hc : (0 < (issueResults issue.details).failed + (issueResults issue.details).passed
            + (issueResults issue.details).skipped ∧
          ((issueResults issue.details).failed : ℚ) /
            (((issueResults issue.details).failed + (issueResults issue.details).passed
                + (issueResults issue.details).skipped : Nat) : ℚ) > 0.5) <;>
      simp [determine_priority, hc]

/-- Concrete test-failure issue with 8 of 10 tests failing. -/
def issue_eight_failed : Issue :=
  { id := "i1", type := "test_failure", component := "HMS-API",
    timestamp := "t0", details := .testResults { passed := 2, failed := 8, skipped := 0 },
    status := "open" }

theorem claim_C8_witness :
    determine_priority "HMS-API" "test_failure" issue_eight_failed = "high" :=
  (claim_C8 "HMS-API" issue_eight_failed).2.1.mpr (by norm_num [issueResults, issue_eight_failed])

/-- C2: whenever `record_component_start` or `record_test_run` returns
normally, the record it persisted for the component is exactly the
returned record, and that record's `operational_status` field equals the
pure rule `opStatusRule` applied to its own start and test sub-statuses:
every mutation path recomputes the derived status before saving, and no
path persists it independently. -/
theorem claim_C2 :
    (∀ (notifyOk : Bool) (store : Store) (fs : FS) (component : String)
        (success : Bool) (output : Option String) (issue_id ticket_id now : String)
        (s' : ComponentStatus),
      (record_component_start notifyOk store fs component success output
          issue_id ticket_id now).result = .ok s' →
      (record_component_start notifyOk store fs component success output
          issue_id ticket_id now).store component = some (.good s') ∧
        s'.operational_status = opStatusRule s'.start.status s'.tests.status) ∧
    (∀ (notifyOk : Bool) (store : Store) (fs : FS) (component : String)
        (success : Bool) (results0 : Option TestResults) (issue_id ticket_id now : String)
        (s' : ComponentStatus),
      (record_test_run notifyOk store fs component success results0
          issue_id ticket_id now).result = .ok s' →
      (record_test_run notifyOk store fs component success results0
          issue_id ticket_id now).store component = some (.good s') ∧
        s'.operational_status = opStatusRule s'.start.status s'.tests.status) := by
  constructor
  · intro notifyOk store fs component success output issue_id ticket_id now s' h
    cases success
    · by_cases hc : (get_component_status store component now).start.failures + 1
          > (get_component_status store component now).start.successes
      · cases notifyOk
        · simp [record_component_start, hc] at h
        · simp only [record_component_start, Bool.false_eq_true, if_false,
            generate_work_ticket_result, hc, if_true, if_pos,
            update_component_status_saved, update_component_status_at,
            OpResult.ok.injEq] at h ⊢
          subst h
          simp
      · simp only [record_component_start, Bool.false_eq_true, if_false,
          generate_work_ticket_result, hc, if_neg,
          update_component_status_saved, update_component_status_at,
          OpResult.ok.injEq] at h ⊢
        subst h
        simp
    · simp only [record_component_start, if_true,
        update_component_status_saved, update_component_status_at,
        OpResult.ok.injEq] at h ⊢
      subst h
      simp
  · intro notifyOk store fs component success results0 issue_id ticket_id now s' h
    cases success
    · by_cases hc : (get_component_status store component now).tests.total_failed + 1
          > (get_component_status store component now).tests.total_passed
      · cases notifyOk
        · simp [record_test_run, hc] at h
        · simp only [record_test_run, Bool.false_eq_true, if_false,
            generate_work_ticket_result, hc, if_true, if_pos,
            update_component_status_saved, update_component_status_at,
            OpResult.ok.injEq] at h ⊢
          subst h
          simp
      · simp only [record_test_run, Bool.false_eq_true, if_false,
          generate_work_ticket_result, hc, if_neg,
          update_component_status_saved, update_component_status_at,
          OpResult.ok.injEq] at h ⊢
        subst h
        simp
    · simp only [record_test_run, if_true,
        update_component_status_saved, update_component_status_at,
        OpResult.ok.injEq] at h ⊢
      subst h
      simp

/-- The record produced by a first successful start recorded at time t1
for component HMS-API, used to instantiate the record-operation
theorems. -/
def w_started : ComponentStatus :=
  { component := "HMS-API", version := "1.0", created_at := "t1", last_updated := "t1",
    start := { last_attempt := some "t1", last_success := some "t1", attempts := 1,
               successes := 1, failures := 0, status := "running" },
    tests := { last_run := none, last_success := none, total_runs := 0,
               total_passed := 0, total_failed := 0, status := "unknown",
               last_results := none },
    issues := [], operational_status := "unknown" }

theorem claim_C2_witness :
    (record_component_start true emptyStore emptyFS "HMS-API" true none "i1" "w1" "t1").store
        "HMS-API" = some (.good w_started) ∧
      w_started.operational_status
        = opStatusRule w_started.start.status w_started.tests.status :=
  claim_C2.1 true emptyStore emptyFS "HMS-API" true none "i1" "w1" "t1" w_started (by decide)

/-- C3: a failing `record_component_start` that returns normally
increments the failures counter, sets the start status to failed, and
appends exactly one open start-failure issue; moreover — whether or not
the call completes — exactly one work ticket is generated if and only if
the incremented failure counter strictly exceeds the success counter, so
a ticket is generated anew on every failing call while failures exceed
successes. -/
theorem claim_C3 (notifyOk : Bool) (store : Store) (fs : FS) (component : String)
    (output : Option String) (issue_id ticket_id now : String) (s0 : ComponentStatus)
    (hs0 : get_component_status store component now = s0) :
    (∀ s', (record_component_start notifyOk store fs component false output
          issue_id ticket_id now).result = .ok s' →
        s'.start.failures = s0.start.failures + 1 ∧
        s'.start.status = "failed" ∧
        s'.issues = s0.issues ++
          [⟨issue_id, "start_failure", component, now, .startOutput output, "open"⟩]) ∧
    ((record_component_start notifyOk store fs component false output
        issue_id ticket_id now).fs.tickets.length = fs.tickets.length + 1 ↔
      s0.start.failures + 1 > s0.start.successes) ∧
    (¬ (s0.start.failures + 1 > s0.start.successes) →
      (record_component_start notifyOk store fs component false output
        issue_id ticket_id now).fs = fs) := by
  subst hs0
  refine ⟨?_, ?_, ?_⟩
  · intro s' h
    by_cases hc : (get_component_status store component now).start.failures + 1
        > (get_component_status store component now).start.successes
    · cases notifyOk
      · simp [record_component_start, hc] at h
      · simp only [record_component_start, Bool.false_eq_true, if_false,
          generate_work_ticket_result, hc, if_true, if_pos,
          update_component_status_saved, OpResult.ok.injEq] at h
        subst h
        simp
    · simp only [record_component_start, Bool.false_eq_true, if_false,
        generate_work_ticket_result, hc, if_neg,
        update_component_status_saved, OpResult.ok.injEq] at h
      subst h
      simp
  · by_cases hc : (get_component_status store component now).start.failures + 1
        > (get_component_status store component now).start.successes
    · cases notifyOk <;> simp [record_component_start, hc]
    · simp [record_component_start, hc]
  · intro hc
    simp [record_component_start, hc]

/-- The record produced by a first failed start recorded at time t1 for
component HMS-API. -/
def w_failed : ComponentStatus :=
  { component := "HMS-API", version := "1.0", created_at := "t1", last_updated := "t1",
    start := { last_attempt := some "t1", last_success := none, attempts := 1,
               successes := 0, failures := 1, status := "failed" },
    tests := { last_run := none, last_success := none, total_runs := 0,
               total_passed := 0, total_failed := 0, status := "unknown",
               last_results := none },
    issues := [{ id := "i1", type := "start_failure", component := "HMS-API",
                 timestamp := "t1", details := .startOutput none, status := "open" }],
    operational_status := "unknown" }

theorem claim_C3_witness :
    w_failed.start.failures = (default_status "HMS-API" "t1").start.failures + 1 ∧
      w_failed.start.status = "failed" ∧
      w_failed.issues = (default_status "HMS-API" "t1").issues ++
        [⟨"i1", "start_failure", "HMS-API", "t1", .startOutput none, "open"⟩] :=
  (claim_C3 true emptyStore emptyFS "HMS-API" none "i1" "w1" "t1"
      (default_status "HMS-API" "t1") rfl).1 w_failed (by decide)

/-- C9: for a component with no persisted state, recording one
successful start and then loading the component yields one success, one
attempt, start status running, and the last-success and last-attempt
timestamps both set to the attempt time. -/
theorem claim_C9 (notifyOk : Bool) (store : Store) (fs : FS) (component : String)
    (issue_id ticket_id now now2 : String) (h : store component = none)
    (loaded : ComponentStatus)
    (hl : get_component_status
        (record_component_start notifyOk store fs component true none
          issue_id ticket_id now).store component now2 = loaded) :
    loaded.start.successes = 1 ∧ loaded.start.attempts = 1 ∧
      loaded.start.status = "running" ∧
      loaded.start.last_success = some now ∧
      loaded.start.last_attempt = some now := by
  subst hl
  simp [record_component_start, get_component_status, h, default_status]

theorem claim_C9_witness :
    w_started.start.successes = 1 ∧ w_started.start.attempts = 1 ∧
      w_started.start.status = "running" ∧
      w_started.start.last_success = some "t1" ∧
      w_started.start.last_attempt = some "t1" :=
  claim_C9 true emptyStore emptyFS "HMS-API" "i1" "w1" "t1" "t2" rfl w_started (by decide)

/-- C10: every normally-returning call to `record_component_start`
increments `attempts` by one and exactly one of `successes`/`failures`
by one, hence preserves `attempts = successes + failures`; symmetrically
every normally-returning `record_test_run` increments `total_runs` and
exactly one of `total_passed`/`total_failed`, preserving
`total_runs = total_passed + total_failed`; the run counters do not
depend on the `results` payload, which is universally quantified. -/
theorem claim_C10 :
    (∀ (notifyOk : Bool) (store : Store) (fs : FS) (component : String)
        (success : Bool) (output : Option String) (issue_id ticket_id now : String)
        (s0 s' : ComponentStatus),
      get_component_status store component now = s0 →
      (record_component_start notifyOk store fs component success output
          issue_id ticket_id now).result = .ok s' →
      s'.start.attempts = s0.start.attempts + 1 ∧
        (success = true → s'.start.successes = s0.start.successes + 1 ∧
          s'.start.failures = s0.start.failures) ∧
        (success = false → s'.start.failures = s0.start.failures + 1 ∧
          s'.start.successes = s0.start.successes) ∧
        (s0.start.attempts = s0.start.successes + s0.start.failures →
          s'.start.attempts = s'.start.successes + s'.start.failures)) ∧
    (∀ (notifyOk : Bool) (store : Store) (fs : FS) (component : String)
        (success : Bool) (results0 : Option TestResults) (issue_id ticket_id now : String)
        (s0 s' : ComponentStatus),
      get_component_status store component now = s0 →
      (record_test_run notifyOk store fs component success results0
          issue_id ticket_id now).result = .ok s' →
      s'.tests.total_runs = s0.tests.total_runs + 1 ∧
        (success = true → s'.tests.total_passed = s0.tests.total_passed + 1 ∧
          s'.tests.total_failed = s0.tests.total_failed) ∧
        (success = false → s'.tests.total_failed = s0.tests.total_failed + 1 ∧
          s'.tests.total_passed = s0.tests.total_passed) ∧
        (s0.tests.total_runs = s0.tests.total_passed + s0.tests.total_failed →
          s'.tests.total_runs = s'.tests.total_passed + s'.tests.total_failed)) := by
  constructor
  · intro notifyOk store fs component success output issue_id ticket_id now s0 s' hs0 h
    subst hs0
    cases success
    · by_cases hc : (get_component_status store component now).start.failures + 1
          > (get_component_status store component now).start.successes
      · cases notifyOk
        · simp [record_component_start, hc] at h
        · simp only [record_component_start, Bool.false_eq_true, if_false,
            generate_work_ticket_result, hc, if_true, if_pos,
            update_component_status_saved, OpResult.ok.injEq] at h
          subst h
          refine ⟨by simp, by simp, by simp, ?_⟩
          intro hinv
          simp
          omega
      · simp only [record_component_start, Bool.false_eq_true, if_false,
          generate_work_ticket_result, hc, if_neg,
          update_component_status_saved, OpResult.ok.injEq] at h
        subst h
        refine ⟨by simp, by simp, by simp, ?_⟩
        intro hinv
        simp
        omega
    · simp only [record_component_start, if_true,
        update_component_status_saved, OpResult.ok.injEq] at h
      subst h
      refine ⟨by simp, by simp, by simp, ?_⟩
      intro hinv
      simp
      omega
  · intro notifyOk store fs component success results0 issue_id ticket_id now s0 s' hs0 h
    subst hs0
    cases success
    · by_cases hc : (get_component_status store component now).tests.total_failed + 1
          > (get_component_status store component now).tests.total_passed
      · cases notifyOk
        · simp [record_test_run, hc] at h
        · simp only [record_test_run, Bool.false_eq_true, if_false,
            generate_work_ticket_result, hc, if_true, if_pos,
            update_component_status_saved, OpResult.ok.injEq] at h
          subst h
          refine ⟨by simp, by simp, by simp, ?_⟩
          intro hinv
          simp
          omega
      · simp only [record_test_run, Bool.false_eq_true, if_false,
          generate_work_ticket_result, hc, if_neg,
          update_component_status_saved, OpResult.ok.injEq] at h
        subst h
        refine ⟨by simp, by simp, by simp, ?_⟩
        intro hinv
        simp
        omega
    · simp only [record_test_run, if_true,
        update_component_status_saved, OpResult.ok.injEq] at h
      subst h
      refine ⟨by simp, by simp, by simp, ?_⟩
      intro hinv
      simp
      omega

/-- The record produced by a first successful test run recorded at time
t1 for component HMS-API with no results payload. -/
def w_tested : ComponentStatus :=
  { component := "HMS-API", version := "1.0", created_at := "t1", last_updated := "t1",
    start := { last_attempt := none, last_success := none, attempts := 0,
               successes := 0, failures := 0, status := "unknown" },
    tests := { last_run := some "t1", last_success := some "t1", total_runs := 1,
               total_passed := 1, total_failed := 0, status := "passing",
               last_results := some { passed := 0, failed := 0, skipped := 0 } },
    issues := [], operational_status := "unknown" }

theorem claim_C10_witness :
    w_started.start.attempts = w_started.start.successes + w_started.start.failures ∧
      w_tested.tests.total_runs = w_tested.tests.total_passed + w_tested.tests.total_failed :=
  ⟨(claim_C10.1 true emptyStore emptyFS "HMS-API" true none "i1" "w1" "t1"
      (default_status "HMS-API" "t1") w_started rfl (by decide)).2.2.2 rfl,
   (claim_C10.2 true emptyStore emptyFS "HMS-API" true none "i1" "w1" "t1"
      (default_status "HMS-API" "t1") w_tested rfl (by decide)).2.2.2 rfl⟩
